import Mathlib

/-!
# Verification of the scheduled-tweet dispatch engine

Shallow embedding of the Twitter-processing core of the repository:

* `getValidTwitterToken` — the token resolver of
  `lib/twitter/getValidTwitterToken.ts` (src/unnamed/part_000); the copy in
  `supabase/functions/process-scheduled-tweets/index.ts` is identical except
  that it lacks the `42703` load-error message rewrite, which no theorem
  below depends on.
* `postTweet` / `routePostTweet` — the two publisher implementations
  (`supabase/functions/process-scheduled-tweets/index.ts` and
  `app/api/cron/scheduled-tweets/route.ts`).
* `processTweet` / `routeProcessRow` — the per-row handling of the two
  dispatch loops, and `goBatches` / `runDispatch` — the batch pagination.

External effects (database reads/writes, HTTP calls) are represented by
explicit oracle inputs recording what each call would return, and by output
fields recording what the code wrote or invoked.  Timestamps are Nat
milliseconds; JavaScript string falsiness (`""`, `null`, `undefined` all
falsy) is modelled by `""` / `Option.none` and the `jsOr` helpers.
-/

deriving instance DecidableEq for Except

namespace ScheduledTweets

/-- JavaScript `a || b` for strings: `""` is falsy. -/
def jsOr (s d : String) : String := if s = "" then d else s

/-- JavaScript `a || b` where `a` is a possibly-absent string
(`null`/`undefined` and `""` are all falsy). -/
def jsOrOpt (o : Option String) (d : String) : String :=
  match o with
  | none => d
  | some s => jsOr s d

/-- An ISO-8601 timestamp string, abstracted to whether `Date.parse` succeeds
on it (`valid ms`) or yields `NaN` (`invalid`).  `Date#toISOString` output is
always `valid`. -/
inductive IsoString where
  | valid (ms : Nat)
  | invalid (s : String)
deriving DecidableEq

/-- `Date.parse`: the millisecond value, or `none` for `NaN`. -/
def dateParse : IsoString → Option Nat
  | .valid ms => some ms
  | .invalid _ => none

/-- `EXPIRY_SKEW_MS = 5 * 60 * 1000` — refresh if expiring within 5 minutes. -/
def EXPIRY_SKEW_MS : Nat := 5 * 60 * 1000

/-- `isNearExpiry(expiresAtIso)`: true when the stored expiry is absent,
unparseable, or within the skew window of `now`.  (`Date.now() >=
expiresAtMs - EXPIRY_SKEW_MS`; over ℕ the truncated subtraction agrees with
the JavaScript signed comparison because `now ≥ 0`.) -/
def isNearExpiry (now : Nat) : Option IsoString → Bool
  | none => true
  | some iso =>
    match dateParse iso with
    | none => true
    | some expiresAtMs => decide (now ≥ expiresAtMs - EXPIRY_SKEW_MS)

/-- `s.slice(0, n)`: the first `n` units of `s` (same value as
`String.take`, defined structurally over the character list so concrete
instances evaluate). -/
def sliceTo (s : String) (n : Nat) : String := String.mk (s.toList.take n)

/-- `truncateErrorMessage(msg)` from the edge function: bound the recorded
error to 500 units (`msg.length > 500 ? msg.slice(0, 500) : msg`). -/
def truncateErrorMessage (msg : String) : String :=
  if msg.length > 500 then sliceTo msg 500 else msg

/-- One `twitter_accounts` row: `access_token`, `refresh_token`,
`expires_at`.  `""` models a null/empty token (both are falsy wherever the
code tests them). -/
structure CredRecord where
  access_token : String
  refresh_token : String
  expires_at : Option IsoString
deriving DecidableEq

/-- Error object returned by a failing `.single()` credential load. -/
structure LoadError where
  code : Option String
  message : String
deriving DecidableEq

/-- Parsed JSON body of a 2xx token-endpoint response:
`{access_token, refresh_token?, expires_in?}`.  `access_token = ""` models a
missing/falsy field; `expires_in` is `some` only when the field is a number. -/
structure RefreshResponseJson where
  access_token : String
  refresh_token : Option String
  expires_in : Option Nat
deriving DecidableEq

/-- What `refreshAccessToken` returns on success. -/
structure Refreshed where
  access_token : String
  refresh_token : Option String
  expires_at : Option IsoString
deriving DecidableEq

/-- `refreshAccessToken(refreshToken)`: exchanged over an oracle `http`
describing the token-endpoint call (`.error msg` = non-2xx or thrown fetch,
with the message the code extracts from `error_description`/`error`/raw
body; `.ok json` = parsed 2xx body).  Missing `TWITTER_CLIENT_ID`
(`clientId = ""`) throws before any fetch; a 2xx body without
`access_token` throws; expiry is `now + expires_in * 1000` as an ISO string
when `expires_in` is a number, else null. -/
def refreshAccessToken (clientId : String) (now : Nat)
    (http : Except String RefreshResponseJson) : Except String Refreshed :=
  if clientId = "" then
    .error "Twitter OAuth is not configured. Missing TWITTER_CLIENT_ID."
  else
    match http with
    | .error msg => .error msg
    | .ok json =>
      if json.access_token = "" then
        .error "Twitter refresh response missing access_token"
      else
        .ok { access_token := json.access_token
              refresh_token := json.refresh_token
              expires_at := json.expires_in.map (fun s => IsoString.valid (now + s * 1000)) }

/-- Oracle for one `getValidTwitterToken` invocation: the credential-row
load outcome, the current time, the client configuration, the
token-endpoint outcome were it called, and the persistence outcome were it
attempted. -/
structure ResolveEnv where
  loadRes : Except LoadError CredRecord
  now : Nat
  clientId : String
  refreshHttp : Except String RefreshResponseJson
  persistErr : Option String
deriving DecidableEq

/-- Observable outcome of one `getValidTwitterToken` invocation: the
returned token or thrown message, the number of token-endpoint fetches
issued, and the `twitter_accounts` updates that were durably applied. -/
structure ResolveOutcome where
  result : Except String String
  refreshCalls : Nat
  writes : List CredRecord
deriving DecidableEq

/-- `getValidTwitterToken(userId, options?)` from
`lib/twitter/getValidTwitterToken.ts`: load the credential row (the `42703`
code gets a migration-hint message), require a non-empty access token,
short-circuit when no refresh is needed, require a refresh token, exchange
it, and persist `{access_token, refresh_token: refreshed || previous,
expires_at}` before returning the new access token. -/
def getValidTwitterToken (env : ResolveEnv) (forceRefresh : Bool) : ResolveOutcome :=
  match env.loadRes with
  | .error e =>
    if e.code = some "42703" then
      { result := .error "twitter_accounts.expires_at column is missing. Run the updated Supabase SQL migration to add expires_at."
        refreshCalls := 0, writes := [] }
    else
      { result := .error (jsOr e.message "Failed to load Twitter credentials")
        refreshCalls := 0, writes := [] }
  | .ok account =>
    if account.access_token = "" then
      { result := .error "Twitter account not connected for this user."
        refreshCalls := 0, writes := [] }
    else if !(forceRefresh || isNearExpiry env.now account.expires_at) then
      { result := .ok account.access_token, refreshCalls := 0, writes := [] }
    else if account.refresh_token = "" then
      { result := .error "Twitter refresh_token missing. Please reconnect your Twitter account."
        refreshCalls := 0, writes := [] }
    else
      let fetches := if env.clientId = "" then 0 else 1
      match refreshAccessToken env.clientId env.now env.refreshHttp with
      | .error msg => { result := .error msg, refreshCalls := fetches, writes := [] }
      | .ok refreshed =>
        let nextRefreshToken := jsOrOpt refreshed.refresh_token account.refresh_token
        let newRec : CredRecord :=
          { access_token := refreshed.access_token
            refresh_token := nextRefreshToken
            expires_at := refreshed.expires_at }
        match env.persistErr with
        | some msg =>
          { result := .error (jsOr msg "Failed to persist refreshed Twitter tokens")
            refreshCalls := fetches, writes := [] }
        | none =>
          { result := .ok refreshed.access_token, refreshCalls := fetches, writes := [newRec] }

/-! ## Publisher -/

/-- Structured fields the error-message extraction reads from a parsed
non-2xx publish response body (`detail`, `error`, `errors[0].message`);
`none` models an absent/falsy field. -/
structure ParsedError where
  detail : Option String
  error : Option String
  firstErrorMessage : Option String
deriving DecidableEq

/-- Outcome of one `fetch` of the publish endpoint: either an HTTP response
(any status, raw body text, and the result of JSON-parsing that body —
`none` when parsing throws) or a network-level failure in which `fetch`
itself rejects with the given message. -/
inductive FetchOutcome where
  | response (status : Nat) (raw : String) (parsed : Option ParsedError)
  | networkError (message : String)
deriving DecidableEq

/-- `Response#ok`: status in the 2xx range. -/
def fetchOk (status : Nat) : Bool := 200 ≤ status && status < 300

/-- Classified publish outcome `{ok, status, error?}`. -/
inductive PublishResult where
  | ok (status : Nat)
  | err (status : Nat) (error : String)
deriving DecidableEq

/-- `!postResult.ok && postResult.status === 401`. -/
def PublishResult.is401 : PublishResult → Bool
  | .ok _ => false
  | .err status _ => status == 401

/-- Edge-function error extraction for a non-2xx publish response:
`errorData?.detail || errorData?.error || errorData?.errors?.[0]?.message ||
(raw || generic status message)`. -/
def extractEdgeError (status : Nat) (raw : String) (parsed : Option ParsedError) : String :=
  let msg0 := if raw = "" then s!"Twitter API error {status}" else raw
  match parsed with
  | none => msg0
  | some p => jsOrOpt p.detail (jsOrOpt p.error (jsOrOpt p.firstErrorMessage msg0))

/-- Cron-route error extraction for a non-2xx publish response:
`errorData?.error || errorData?.detail || generic status message` (the raw
body is never used; an unparseable body yields the generic message). -/
def extractRouteError (status : Nat) (parsed : Option ParsedError) : String :=
  match parsed with
  | none => s!"Twitter API error {status}"
  | some p => jsOrOpt p.error (jsOrOpt p.detail s!"Twitter API error {status}")

/-- `postTweet(accessToken, text)` from the edge function.  There is no
try/catch around the `fetch`, so a network-level failure propagates as a
thrown exception (`.error`); HTTP responses never throw and are classified
by `response.ok` with the status preserved. -/
def postTweet : FetchOutcome → Except String PublishResult
  | .networkError msg => .error msg
  | .response status raw parsed =>
    if fetchOk status then .ok (.ok status)
    else .ok (.err status (extractEdgeError status raw parsed))

/-- `postTweet(accessToken, text)` from `app/api/cron/scheduled-tweets/route.ts`.
The whole body is wrapped in try/catch, so it never throws: network-level
failures become `{ok:false, status:0, error: message || "Network error"}`. -/
def routePostTweet : FetchOutcome → PublishResult
  | .networkError msg => .err 0 (jsOr msg "Network error")
  | .response status _raw parsed =>
    if fetchOk status then .ok status
    else .err status (extractRouteError status parsed)

/-! ## Per-row dispatch -/

/-- A due `scheduled_tweets` row as consumed by the loop. -/
structure Tweet where
  id : String
  user_id : String
  text : String
deriving DecidableEq

/-- Oracle for the processing of a single row: the two possible
`getValidTwitterToken` invocations (initial and forced retry), the two
possible publish fetches, and the timestamp a success update would record. -/
structure RowEnv where
  resolve1 : ResolveEnv
  fetch1 : FetchOutcome
  resolve2 : ResolveEnv
  fetch2 : FetchOutcome
  nowPost : Nat
deriving DecidableEq

/-- The per-row result record `{id, status, error?}` accumulated into the
run's response. -/
structure RowResult where
  id : String
  status : String
  error : Option String
deriving DecidableEq

/-- The `scheduled_tweets` update issued for a row by the edge function
(always sets all three fields). -/
structure RowUpdate where
  status : String
  posted_at : Option Nat
  error_message : Option String
deriving DecidableEq

/-- Observable outcome of processing one row in the edge function:
the pushed result record, the row update, the `forceRefresh` flag of each
token resolution performed, and the number of publish calls issued. -/
structure RowOutcome where
  result : RowResult
  update : RowUpdate
  resolveForceFlags : List Bool
  publishCalls : Nat
deriving DecidableEq

/-- `accessToken.trim().length === 0`: the token is empty or
whitespace-only. -/
def isBlank (s : String) : Bool := s.toList.all Char.isWhitespace

/-- Mark a row failed and record the same message in the run results
(edge function failure path: `status:"failed"`, `posted_at:null`,
truncated `error_message`). -/
def edgeFail (id msg : String) (flags : List Bool) (pubs : Nat) : RowOutcome :=
  let m := truncateErrorMessage msg
  { result := { id := id, status := "failed", error := some m }
    update := { status := "failed", posted_at := none, error_message := some m }
    resolveForceFlags := flags
    publishCalls := pubs }

/-- Record the final (possibly retried) publish result for a row in the
edge function: `ok` marks the row posted with `posted_at = now` and a null
`error_message`; otherwise the row is marked failed with the truncated
`postResult.error || "Failed to post tweet"`. -/
def edgeFinish (id : String) (nowPost : Nat) (res : PublishResult)
    (flags : List Bool) (pubs : Nat) : RowOutcome :=
  match res with
  | .err _ e => edgeFail id (jsOr e "Failed to post tweet") flags pubs
  | .ok _ =>
    { result := { id := id, status := "posted", error := none }
      update := { status := "posted", posted_at := some nowPost, error_message := none }
      resolveForceFlags := flags
      publishCalls := pubs }

/-- One iteration of `for (const tweet of dueTweets)` in the edge function:
resolve a token (no force-refresh), reject empty/whitespace tokens, publish,
on a 401 force-refresh and retry once inside an inner try/catch whose
failures fall through to recording the original 401 result, then record the
outcome.  Any error thrown on the way is caught at the per-row boundary and
recorded as a row failure (`err?.message || "Unexpected error posting
tweet"`, truncated). -/
def processTweet (env : RowEnv) (tweet : Tweet) : RowOutcome :=
  match (getValidTwitterToken env.resolve1 false).result with
  | .error msg => edgeFail tweet.id (jsOr msg "Unexpected error posting tweet") [false] 0
  | .ok tok =>
    if isBlank tok then
      edgeFail tweet.id "Access token is empty or invalid" [false] 0
    else
      match postTweet env.fetch1 with
      | .error msg => edgeFail tweet.id (jsOr msg "Unexpected error posting tweet") [false] 1
      | .ok res1 =>
        if res1.is401 then
          match (getValidTwitterToken env.resolve2 true).result with
          | .error _ => edgeFinish tweet.id env.nowPost res1 [false, true] 1
          | .ok tok2 =>
            if isBlank tok2 then edgeFinish tweet.id env.nowPost res1 [false, true] 1
            else
              match postTweet env.fetch2 with
              | .error _ => edgeFinish tweet.id env.nowPost res1 [false, true] 2
              | .ok res2 => edgeFinish tweet.id env.nowPost res2 [false, true] 2
        else
          edgeFinish tweet.id env.nowPost res1 [false] 1

/-! ## Cron-route per-row dispatch -/

/-- A `scheduled_tweets` update issued by the cron route: `markFailed` sets
only `status:"failed"` and the 500-sliced `error_message` (no `posted_at`);
the success update sets all three fields. -/
inductive RouteUpdate where
  | markFailed (error_message : String)
  | posted (posted_at : Nat)
deriving DecidableEq

/-- `markFailed(supabase, id, error)`: records `error.slice(0, 500)`. -/
def routeMarkFailed (e : String) : RouteUpdate := .markFailed (sliceTo e 500)

/-- Observable outcome of processing one row in the cron route. -/
structure RouteRowOutcome where
  result : RowResult
  updates : List RouteUpdate
  resolveForceFlags : List Bool
  publishCalls : Nat
deriving DecidableEq

/-- One iteration of `for (const tweet of dueTweets)` in
`app/api/cron/scheduled-tweets/route.ts`.  Token-resolution failure is
caught by a dedicated inner try/catch that marks the row failed and pushes
`{id, status:"failed_no_account"}` (no error field); a 401 triggers one
force-refresh-and-retry attempt whose failures fall through; a final
failure marks the row failed and pushes `{id, status:"failed_post", error}`
(the raw, untruncated error); success updates the row to posted and pushes
`{id, status:"posted"}`.  Unlike the edge function there is no empty-token
check, and `routePostTweet` never throws. -/
def routeProcessRow (env : RowEnv) (tweet : Tweet) : RouteRowOutcome :=
  match (getValidTwitterToken env.resolve1 false).result with
  | .error msg =>
    { result := { id := tweet.id, status := "failed_no_account", error := none }
      updates := [routeMarkFailed (jsOr msg "No Twitter account connected for this user.")]
      resolveForceFlags := [false]
      publishCalls := 0 }
  | .ok _tok =>
    let res1 := routePostTweet env.fetch1
    let step :=
      if res1.is401 then
        match (getValidTwitterToken env.resolve2 true).result with
        | .error _ => (res1, [false, true], 1)
        | .ok _tok2 => (routePostTweet env.fetch2, [false, true], 2)
      else
        (res1, [false], 1)
    match step with
    | (.err _ e, flags, pubs) =>
      { result := { id := tweet.id, status := "failed_post", error := some e }
        updates := [routeMarkFailed (jsOr e "Failed to post tweet")]
        resolveForceFlags := flags
        publishCalls := pubs }
    | (.ok _, flags, pubs) =>
      { result := { id := tweet.id, status := "posted", error := none }
        updates := [RouteUpdate.posted env.nowPost]
        resolveForceFlags := flags
        publishCalls := pubs }

/-! ## Batch loop -/

/-- `BATCH_SIZE = 50` (edge function). -/
def BATCH_SIZE : Nat := 50

/-- `MAX_BATCHES_PER_RUN = 10` (edge function safety cap). -/
def MAX_BATCHES_PER_RUN : Nat := 10

/-- One row returned by a due-rows batch query, paired with the external
behaviour its processing would observe. -/
structure FetchedRow where
  tweet : Tweet
  env : RowEnv

/-- Run-level outcome: the HTTP response body (`.error details` models the
500 `Failed to fetch scheduled tweets` response, `.ok results` the 200
response) and the number of due-rows batch queries issued. -/
structure RunOutcome where
  response : Except String (List RowResult)
  queries : Nat

/-- The `for (let batch = 0; batch < maxBatches; batch++)` loop, generic in
the per-row processor and the configured batch size.  `fetch idx` is the
due-rows query for page `idx`; a query error aborts the run with a
run-level error; an empty batch stops; a partial batch (fewer than
`batchSize` rows) stops after processing; a full batch continues with the
next page until the fuel (the batch cap) is exhausted. -/
def goBatches (fetch : Nat → Except String (List FetchedRow))
    (proc : FetchedRow → RowResult) (batchSize : Nat) :
    Nat → Nat → List RowResult → RunOutcome
  | 0, idx, acc => { response := .ok acc, queries := idx }
  | fuel + 1, idx, acc =>
    match fetch idx with
    | .error msg => { response := .error msg, queries := idx + 1 }
    | .ok rows =>
      if rows.length = 0 then
        { response := .ok acc, queries := idx + 1 }
      else
        let acc2 := acc ++ rows.map proc
        if rows.length < batchSize then
          { response := .ok acc2, queries := idx + 1 }
        else
          goBatches fetch proc batchSize fuel (idx + 1) acc2

/-- The edge-function processing run: up to `MAX_BATCHES_PER_RUN` batches of
`BATCH_SIZE` due rows, each row handled by `processTweet`. -/
def runDispatch (fetch : Nat → Except String (List FetchedRow)) : RunOutcome :=
  goBatches fetch (fun r => (processTweet r.env r.tweet).result) BATCH_SIZE MAX_BATCHES_PER_RUN 0 []

/-- Whether a resolver call ended in a thrown error. -/
def resolveThrew : Except String String → Bool
  | .error _ => true
  | .ok _ => false

/-! ## Sample data used by the witnesses -/

/-- A credential record whose expiry is comfortably beyond the skew window. -/
def credFresh : CredRecord :=
  { access_token := "tokA", refresh_token := "refA", expires_at := some (.valid 10000000) }

/-- Resolver oracle for `credFresh` at `now = 1000`. -/
def freshEnv : ResolveEnv :=
  { loadRes := .ok credFresh, now := 1000, clientId := "cid"
    refreshHttp := .ok { access_token := "newTok", refresh_token := some "newRef", expires_in := some 7200 }
    persistErr := none }

/-- A credential record that is already expired. -/
def credStale : CredRecord :=
  { access_token := "oldTok", refresh_token := "oldRef", expires_at := some (.valid 0) }

/-- Resolver oracle for `credStale` at `now = 5000` with a successful
refresh exchange and persistence. -/
def staleEnv : ResolveEnv :=
  { loadRes := .ok credStale, now := 5000, clientId := "cid"
    refreshHttp := .ok { access_token := "newTok", refresh_token := some "newRef", expires_in := some 7200 }
    persistErr := none }

/-! ## Claims about the token resolver -/

/-- C3: for a credential record whose `expires_at` parses to a time more
than the 5-minute skew window after the current time, a non-forced resolve
performs zero refresh calls, writes nothing to the credential store, and
(for a connected account) returns the stored access token unchanged. -/
theorem resolve_fresh_token_no_refresh (env : ResolveEnv) (a : CredRecord) (ms : Nat)
    (hload : env.loadRes = .ok a)
    (hexp : a.expires_at = some (.valid ms))
    (hfresh : env.now + EXPIRY_SKEW_MS < ms) :
    (getValidTwitterToken env false).refreshCalls = 0 ∧
    (getValidTwitterToken env false).writes = [] ∧
    (a.access_token ≠ "" → (getValidTwitterToken env false).result = .ok a.access_token) := by
  have hnear : isNearExpiry env.now a.expires_at = false := by
    rw [hexp]
    simp only [isNearExpiry, dateParse, decide_eq_false_iff_not, not_le]
    simp only [EXPIRY_SKEW_MS] at hfresh ⊢
    omega
  unfold getValidTwitterToken
  rw [hload]
  by_cases hat : a.access_token = "" <;> simp [hat, hnear]

/-- Witness for C3: concrete fresh credential, no refresh, no writes, the
stored token returned. -/
theorem resolve_fresh_token_no_refresh_witness :
    freshEnv.loadRes = .ok credFresh ∧
    credFresh.expires_at = some (.valid 10000000) ∧
    freshEnv.now + EXPIRY_SKEW_MS < 10000000 ∧
    (getValidTwitterToken freshEnv false).refreshCalls = 0 ∧
    (getValidTwitterToken freshEnv false).writes = [] ∧
    (getValidTwitterToken freshEnv false).result = .ok credFresh.access_token := by
  have h := resolve_fresh_token_no_refresh freshEnv credFresh 10000000 rfl rfl (by decide)
  exact ⟨rfl, rfl, by decide, h.1, h.2.1, h.2.2 (by decide)⟩

/-- C9: on a successful refresh, the resolver persists the new
`access_token` and `expires_at` together with the refresh token taken from
the refresh response — retaining the previous refresh token when the
response omits one — and returns the new access token. -/
theorem resolve_persists_refreshed (env : ResolveEnv) (a : CredRecord)
    (refreshed : Refreshed) (force : Bool) (s : String)
    (hload : env.loadRes = .ok a)
    (hat : a.access_token ≠ "")
    (hsr : (force || isNearExpiry env.now a.expires_at) = true)
    (hrt : a.refresh_token ≠ "")
    (href : refreshAccessToken env.clientId env.now env.refreshHttp = .ok refreshed)
    (hpersist : env.persistErr = none) :
    (getValidTwitterToken env force).result = .ok refreshed.access_token ∧
    (getValidTwitterToken env force).writes =
      [{ access_token := refreshed.access_token
         refresh_token := jsOrOpt refreshed.refresh_token a.refresh_token
         expires_at := refreshed.expires_at }] ∧
    (refreshed.refresh_token = none →
      jsOrOpt refreshed.refresh_token a.refresh_token = a.refresh_token) ∧
    (refreshed.refresh_token = some s → s ≠ "" →
      jsOrOpt refreshed.refresh_token a.refresh_token = s) := by
  unfold getValidTwitterToken
  rw [hload, href, hpersist]
  refine ⟨by simp [hat, hsr, hrt], by simp [hat, hsr, hrt], ?_, ?_⟩
  · intro hz
    simp [jsOrOpt, hz]
  · intro hz hs
    simp [jsOrOpt, jsOr, hz, hs]

/-- Witness for C9: a stale credential is refreshed; the response's new
access token, refresh token and expiry are persisted and the new access
token is returned. -/
theorem resolve_persists_refreshed_witness :
    staleEnv.loadRes = .ok credStale ∧
    credStale.access_token ≠ "" ∧
    (false || isNearExpiry staleEnv.now credStale.expires_at) = true ∧
    credStale.refresh_token ≠ "" ∧
    refreshAccessToken staleEnv.clientId staleEnv.now staleEnv.refreshHttp =
      .ok { access_token := "newTok", refresh_token := some "newRef"
            expires_at := some (.valid 7205000) } ∧
    staleEnv.persistErr = none ∧
    (getValidTwitterToken staleEnv false).result = .ok "newTok" ∧
    (getValidTwitterToken staleEnv false).writes =
      [{ access_token := "newTok", refresh_token := "newRef"
         expires_at := some (.valid 7205000) }] := by
  have h := resolve_persists_refreshed staleEnv credStale
    { access_token := "newTok", refresh_token := some "newRef", expires_at := some (.valid 7205000) }
    false "newRef" rfl (by decide) (by decide) (by decide) (by decide) rfl
  refine ⟨rfl, by decide, by decide, by decide, by decide, rfl, h.1, ?_⟩
  have h2 := h.2.1
  simpa [jsOrOpt, jsOr] using h2

/-- C10: every resolver failure arising before the persistence step — load
failure, empty access token, missing refresh token when a refresh is
required, or a failed refresh exchange — throws without having written
anything to the credential store. -/
theorem resolve_prerefresh_failure_no_write (env : ResolveEnv) (force : Bool)
    (h : (∃ e, env.loadRes = .error e)
       ∨ (∃ a, env.loadRes = .ok a ∧ a.access_token = "")
       ∨ (∃ a, env.loadRes = .ok a ∧ a.access_token ≠ "" ∧
            (force || isNearExpiry env.now a.expires_at) = true ∧ a.refresh_token = "")
       ∨ (∃ a m, env.loadRes = .ok a ∧ a.access_token ≠ "" ∧
            (force || isNearExpiry env.now a.expires_at) = true ∧ a.refresh_token ≠ "" ∧
            refreshAccessToken env.clientId env.now env.refreshHttp = .error m)) :
    resolveThrew (getValidTwitterToken env force).result = true ∧
    (getValidTwitterToken env force).writes = [] := by
  unfold getValidTwitterToken
  rcases h with ⟨e, hload⟩ | ⟨a, hload, hat⟩ | ⟨a, hload, hat, hsr, hrt⟩ |
    ⟨a, m, hload, hat, hsr, hrt, href⟩
  · rw [hload]
    by_cases hc : e.code = some "42703" <;> simp [hc, resolveThrew]
  · rw [hload]
    simp [hat, resolveThrew]
  · rw [hload]
    simp [hat, hsr, hrt, resolveThrew]
  · rw [hload, href]
    simp [hat, hsr, hrt, resolveThrew]

/-- Witness for C10: a missing credential row throws and leaves the store
untouched. -/
theorem resolve_prerefresh_failure_no_write_witness :
    resolveThrew (getValidTwitterToken
      { loadRes := .error { code := none, message := "row not found" }
        now := 0, clientId := "cid"
        refreshHttp := .error "unused", persistErr := none } false).result = true ∧
    (getValidTwitterToken
      { loadRes := .error { code := none, message := "row not found" }
        now := 0, clientId := "cid"
        refreshHttp := .error "unused", persistErr := none } false).writes = [] :=
  resolve_prerefresh_failure_no_write _ false
    (Or.inl ⟨{ code := none, message := "row not found" }, rfl⟩)

/-! ## Claims about the per-row dispatch -/

/-- Helper: when the first publish fetch yields an HTTP response whose
status is not 401, the row is never retried — at most one publish call is
issued (zero when token resolution already failed). -/
theorem processTweet_no_retry_of_not401 (env : RowEnv) (t : Tweet)
    (st : Nat) (raw : String) (p : Option ParsedError)
    (hf : env.fetch1 = .response st raw p) (hst : st ≠ 401) :
    (processTweet env t).publishCalls ≤ 1 := by
  unfold processTweet
  rcases hres : (getValidTwitterToken env.resolve1 false).result with msg | tok
  · simp [edgeFail]
  · by_cases htr : isBlank tok
    · simp [htr, edgeFail]
    · rw [hf]
      by_cases hfo : fetchOk st
      · simp [htr, postTweet, hfo, PublishResult.is401, edgeFinish]
      · simp [htr, postTweet, hfo, PublishResult.is401, hst, edgeFinish, edgeFail]

/-- C1: a due row whose first publish attempt returns a 401 and whose
forced-refresh retry succeeds undergoes exactly one force-refresh token
resolution (`resolveForceFlags = [false, true]`) and exactly two publish
calls, and ends posted; and a row whose first publish attempt returns any
HTTP status other than 401 is never retried. -/
theorem dispatch_retry_on_401 (env env2 : RowEnv) (t t2 : Tweet)
    (tok tok2 : String) (raw raw2 raw3 : String) (p p2 p3 : Option ParsedError)
    (st2 st3 : Nat)
    (h1 : (getValidTwitterToken env.resolve1 false).result = .ok tok)
    (htok : isBlank tok = false)
    (hf1 : env.fetch1 = .response 401 raw p)
    (h2 : (getValidTwitterToken env.resolve2 true).result = .ok tok2)
    (htok2 : isBlank tok2 = false)
    (hf2 : env.fetch2 = .response st2 raw2 p2)
    (hok2 : fetchOk st2 = true)
    (hne : env2.fetch1 = .response st3 raw3 p3)
    (h401ne : st3 ≠ 401) :
    (processTweet env t).resolveForceFlags = [false, true] ∧
    (processTweet env t).publishCalls = 2 ∧
    (processTweet env t).result = { id := t.id, status := "posted", error := none } ∧
    (processTweet env t).update.status = "posted" ∧
    (processTweet env2 t2).publishCalls ≤ 1 := by
  have hmain : processTweet env t =
      { result := { id := t.id, status := "posted", error := none }
        update := { status := "posted", posted_at := some env.nowPost, error_message := none }
        resolveForceFlags := [false, true]
        publishCalls := 2 } := by
    have h401 : fetchOk 401 = false := by decide
    unfold processTweet
    rw [h1, hf1, h2, hf2]
    simp [htok, htok2, postTweet, h401, PublishResult.is401, hok2, edgeFinish]
  refine ⟨by rw [hmain], by rw [hmain], by rw [hmain], by rw [hmain], ?_⟩
  exact processTweet_no_retry_of_not401 env2 t2 st3 raw3 p3 hne h401ne

/-- Witness for C1: a concrete row gets a 401, is retried after a forced
refresh, and is posted with exactly two publish calls; a concrete 403 row
is not retried. -/
theorem dispatch_retry_on_401_witness :
    (getValidTwitterToken staleEnv false).result = .ok "newTok" ∧
    isBlank "newTok" = false ∧
    fetchOk 201 = true ∧
    (processTweet
      { resolve1 := staleEnv, fetch1 := .response 401 "denied" none
        resolve2 := staleEnv, fetch2 := .response 201 "created" none
        nowPost := 99 }
      { id := "t1", user_id := "u1", text := "hello" }).resolveForceFlags = [false, true] ∧
    (processTweet
      { resolve1 := staleEnv, fetch1 := .response 401 "denied" none
        resolve2 := staleEnv, fetch2 := .response 201 "created" none
        nowPost := 99 }
      { id := "t1", user_id := "u1", text := "hello" }).publishCalls = 2 ∧
    (processTweet
      { resolve1 := staleEnv, fetch1 := .response 401 "denied" none
        resolve2 := staleEnv, fetch2 := .response 201 "created" none
        nowPost := 99 }
      { id := "t1", user_id := "u1", text := "hello" }).result =
      { id := "t1", status := "posted", error := none } ∧
    (processTweet
      { resolve1 := staleEnv, fetch1 := .response 403 "forbidden" none
        resolve2 := staleEnv, fetch2 := .response 201 "created" none
        nowPost := 99 }
      { id := "t9", user_id := "u1", text := "hello" }).publishCalls ≤ 1 := by
  have h := dispatch_retry_on_401
    { resolve1 := staleEnv, fetch1 := .response 401 "denied" none
      resolve2 := staleEnv, fetch2 := .response 201 "created" none
      nowPost := 99 }
    { resolve1 := staleEnv, fetch1 := .response 403 "forbidden" none
      resolve2 := staleEnv, fetch2 := .response 201 "created" none
      nowPost := 99 }
    { id := "t1", user_id := "u1", text := "hello" }
    { id := "t9", user_id := "u1", text := "hello" }
    "newTok" "newTok" "denied" "created" "forbidden" none none none 201 403
    (by decide) (by decide) rfl (by decide) (by decide) rfl (by decide) rfl (by decide)
  exact ⟨by decide, by decide, by decide, h.1, h.2.1, h.2.2.1, h.2.2.2.2⟩

/-- C4: a due row whose publish attempt returns an HTTP failure other than
401 gets exactly one publish call (no retry) and exactly one (non-forced)
token resolution; the row is marked failed and the recorded `error_message`
is the extracted upstream error (defaulted when falsy), truncated to 500
units when longer and kept intact otherwise. -/
theorem dispatch_non401_failure (env : RowEnv) (t : Tweet) (tok raw : String)
    (p : Option ParsedError) (st : Nat)
    (h1 : (getValidTwitterToken env.resolve1 false).result = .ok tok)
    (htok : isBlank tok = false)
    (hf1 : env.fetch1 = .response st raw p)
    (hnok : fetchOk st = false)
    (hst : st ≠ 401) :
    (processTweet env t).publishCalls = 1 ∧
    (processTweet env t).resolveForceFlags = [false] ∧
    (processTweet env t).result.status = "failed" ∧
    (processTweet env t).update =
      { status := "failed", posted_at := none
        error_message := some (truncateErrorMessage
          (jsOr (extractEdgeError st raw p) "Failed to post tweet")) } ∧
    ((jsOr (extractEdgeError st raw p) "Failed to post tweet").length ≤ 500 →
      truncateErrorMessage (jsOr (extractEdgeError st raw p) "Failed to post tweet") =
        jsOr (extractEdgeError st raw p) "Failed to post tweet") ∧
    (500 < (jsOr (extractEdgeError st raw p) "Failed to post tweet").length →
      truncateErrorMessage (jsOr (extractEdgeError st raw p) "Failed to post tweet") =
        sliceTo (jsOr (extractEdgeError st raw p) "Failed to post tweet") 500) := by
  have hmain : processTweet env t =
      edgeFail t.id (jsOr (extractEdgeError st raw p) "Failed to post tweet") [false] 1 := by
    unfold processTweet
    rw [h1, hf1]
    simp [htok, postTweet, hnok, PublishResult.is401, hst, edgeFinish]
  refine ⟨by rw [hmain]; rfl, by rw [hmain]; rfl, by rw [hmain]; rfl,
    by rw [hmain]; rfl, ?_, ?_⟩
  · intro h
    unfold truncateErrorMessage
    rw [if_neg (by omega)]
  · intro h
    unfold truncateErrorMessage
    rw [if_pos (by omega)]

/-- Witness for C4: a concrete 403 failure is recorded without retry. -/
theorem dispatch_non401_failure_witness :
    (getValidTwitterToken staleEnv false).result = .ok "newTok" ∧
    isBlank "newTok" = false ∧
    fetchOk 403 = false ∧
    (processTweet
      { resolve1 := staleEnv, fetch1 := .response 403 "no permission" none
        resolve2 := staleEnv, fetch2 := .response 201 "created" none
        nowPost := 99 }
      { id := "t3", user_id := "u1", text := "hello" }).publishCalls = 1 ∧
    (processTweet
      { resolve1 := staleEnv, fetch1 := .response 403 "no permission" none
        resolve2 := staleEnv, fetch2 := .response 201 "created" none
        nowPost := 99 }
      { id := "t3", user_id := "u1", text := "hello" }).update =
      { status := "failed", posted_at := none, error_message := some "no permission" } := by
  have h := dispatch_non401_failure
    { resolve1 := staleEnv, fetch1 := .response 403 "no permission" none
      resolve2 := staleEnv, fetch2 := .response 201 "created" none
      nowPost := 99 }
    { id := "t3", user_id := "u1", text := "hello" }
    "newTok" "no permission" none 403
    (by decide) (by decide) rfl (by decide) (by decide)
  refine ⟨by decide, by decide, by decide, h.1, ?_⟩
  have h4 := h.2.2.2.1
  simpa [extractEdgeError, jsOr, truncateErrorMessage] using h4

/-- C5: a due row whose publish attempt succeeds — directly, or on the
forced-refresh retry after a 401 — is updated to `status = "posted"` with
`posted_at` set to a timestamp and `error_message = null`, and the pushed
result is `{id, status: "posted"}`. -/
theorem dispatch_success_marks_posted (env : RowEnv) (t : Tweet) (tok : String)
    (h1 : (getValidTwitterToken env.resolve1 false).result = .ok tok)
    (htok : isBlank tok = false)
    (hsucc :
      (∃ st raw p, env.fetch1 = .response st raw p ∧ fetchOk st = true)
      ∨ (∃ raw p tok2 st2 raw2 p2, env.fetch1 = .response 401 raw p ∧
          (getValidTwitterToken env.resolve2 true).result = .ok tok2 ∧
          isBlank tok2 = false ∧
          env.fetch2 = .response st2 raw2 p2 ∧ fetchOk st2 = true)) :
    (processTweet env t).update =
      { status := "posted", posted_at := some env.nowPost, error_message := none } ∧
    (processTweet env t).result = { id := t.id, status := "posted", error := none } := by
  rcases hsucc with ⟨st, raw, p, hf1, hok⟩ |
    ⟨raw, p, tok2, st2, raw2, p2, hf1, h2, htok2, hf2, hok2⟩
  · have hmain : processTweet env t =
        { result := { id := t.id, status := "posted", error := none }
          update := { status := "posted", posted_at := some env.nowPost, error_message := none }
          resolveForceFlags := [false]
          publishCalls := 1 } := by
      unfold processTweet
      rw [h1, hf1]
      simp [htok, postTweet, hok, PublishResult.is401, edgeFinish]
    rw [hmain]
    exact ⟨rfl, rfl⟩
  · have h401 : fetchOk 401 = false := by decide
    have hmain : processTweet env t =
        { result := { id := t.id, status := "posted", error := none }
          update := { status := "posted", posted_at := some env.nowPost, error_message := none }
          resolveForceFlags := [false, true]
          publishCalls := 2 } := by
      unfold processTweet
      rw [h1, hf1, h2, hf2]
      simp [htok, htok2, postTweet, h401, PublishResult.is401, hok2, edgeFinish]
    rw [hmain]
    exact ⟨rfl, rfl⟩

/-- Witness for C5: a concrete row published with a 201 is marked posted
with a timestamp and a null error message. -/
theorem dispatch_success_marks_posted_witness :
    (getValidTwitterToken freshEnv false).result = .ok "tokA" ∧
    isBlank "tokA" = false ∧
    fetchOk 201 = true ∧
    (processTweet
      { resolve1 := freshEnv, fetch1 := .response 201 "created" none
        resolve2 := freshEnv, fetch2 := .networkError "unused"
        nowPost := 77 }
      { id := "t1", user_id := "u1", text := "hello" }).update =
      { status := "posted", posted_at := some 77, error_message := none } ∧
    (processTweet
      { resolve1 := freshEnv, fetch1 := .response 201 "created" none
        resolve2 := freshEnv, fetch2 := .networkError "unused"
        nowPost := 77 }
      { id := "t1", user_id := "u1", text := "hello" }).result =
      { id := "t1", status := "posted", error := none } := by
  have h := dispatch_success_marks_posted
    { resolve1 := freshEnv, fetch1 := .response 201 "created" none
      resolve2 := freshEnv, fetch2 := .networkError "unused"
      nowPost := 77 }
    { id := "t1", user_id := "u1", text := "hello" }
    "tokA" (by decide) (by decide)
    (Or.inl ⟨201, "created", none, rfl, by decide⟩)
  exact ⟨by decide, by decide, by decide, h.1, h.2⟩

/-! ## Batch-loop lemmas -/

/-- Unfolding of one loop iteration. -/
theorem goBatches_succ (fetch : Nat → Except String (List FetchedRow))
    (proc : FetchedRow → RowResult) (batchSize fuel idx : Nat) (acc : List RowResult) :
    goBatches fetch proc batchSize (fuel + 1) idx acc =
      match fetch idx with
      | .error msg => { response := .error msg, queries := idx + 1 }
      | .ok rows =>
        if rows.length = 0 then
          { response := .ok acc, queries := idx + 1 }
        else if rows.length < batchSize then
          { response := .ok (acc ++ rows.map proc), queries := idx + 1 }
        else
          goBatches fetch proc batchSize fuel (idx + 1) (acc ++ rows.map proc) := rfl

/-- One loop iteration whose batch query fails. -/
theorem goBatches_succ_err (fetch : Nat → Except String (List FetchedRow))
    (proc : FetchedRow → RowResult) (batchSize fuel idx : Nat) (acc : List RowResult)
    (msg : String) (hf : fetch idx = .error msg) :
    goBatches fetch proc batchSize (fuel + 1) idx acc =
      { response := .error msg, queries := idx + 1 } := by
  rw [goBatches_succ, hf]

/-- One loop iteration whose batch query returns rows. -/
theorem goBatches_succ_ok (fetch : Nat → Except String (List FetchedRow))
    (proc : FetchedRow → RowResult) (batchSize fuel idx : Nat) (acc : List RowResult)
    (rows : List FetchedRow) (hf : fetch idx = .ok rows) :
    goBatches fetch proc batchSize (fuel + 1) idx acc =
      (if rows.length = 0 then
        { response := .ok acc, queries := idx + 1 }
      else if rows.length < batchSize then
        { response := .ok (acc ++ rows.map proc), queries := idx + 1 }
      else
        goBatches fetch proc batchSize fuel (idx + 1) (acc ++ rows.map proc)) := by
  rw [goBatches_succ, hf]

/-- The loop never issues more queries than its fuel allows. -/
theorem goBatches_queries_le (fetch : Nat → Except String (List FetchedRow))
    (proc : FetchedRow → RowResult) (batchSize : Nat) :
    ∀ fuel idx acc, (goBatches fetch proc batchSize fuel idx acc).queries ≤ idx + fuel := by
  intro fuel
  induction fuel with
  | zero => intro idx acc; simp [goBatches]
  | succ n ih =>
    intro idx acc
    rw [goBatches_succ]
    cases hf : fetch idx with
    | error msg => simp
    | ok rows =>
      by_cases h0 : rows.length = 0
      · simp [h0]
      · by_cases hlt : rows.length < batchSize
        · simp [h0, hlt]
        · simp only [h0, if_false, hlt]
          have := ih (idx + 1) (acc ++ rows.map proc)
          omega

/-- With fuel left, the loop issues at least one more query. -/
theorem goBatches_queries_ge (fetch : Nat → Except String (List FetchedRow))
    (proc : FetchedRow → RowResult) (batchSize : Nat) :
    ∀ fuel idx acc, fuel ≠ 0 →
      idx + 1 ≤ (goBatches fetch proc batchSize fuel idx acc).queries := by
  intro fuel
  induction fuel with
  | zero => intro idx acc h; exact absurd rfl h
  | succ n ih =>
    intro idx acc _
    rw [goBatches_succ]
    cases hf : fetch idx with
    | error msg => simp
    | ok rows =>
      by_cases h0 : rows.length = 0
      · simp [h0]
      · by_cases hlt : rows.length < batchSize
        · simp [h0, hlt]
        · simp [h0, hlt]
          rcases Nat.eq_zero_or_pos n with hn | hn
          · subst hn
            simp [goBatches]
          · have := ih (idx + 1) (acc ++ rows.map proc) (by omega)
            omega

/-- Walking over a prefix of full batches: after `k` full batches the loop
is at page `idx + k` with `k` units of fuel consumed. -/
theorem goBatches_walk (fetch : Nat → Except String (List FetchedRow))
    (proc : FetchedRow → RowResult) (batchSize : Nat) (hbs : 0 < batchSize) :
    ∀ (k fuel idx : Nat) (acc : List RowResult),
      (∀ j, j < k → ∃ rows, fetch (idx + j) = .ok rows ∧ rows.length = batchSize) →
      k ≤ fuel →
      ∃ acc2, goBatches fetch proc batchSize fuel idx acc =
        goBatches fetch proc batchSize (fuel - k) (idx + k) acc2 := by
  intro k
  induction k with
  | zero => intro fuel idx acc _ _; exact ⟨acc, by simp⟩
  | succ n ih =>
    intro fuel idx acc hfull hk
    obtain ⟨rows, hrows, hlen⟩ := hfull 0 (by omega)
    obtain ⟨m, rfl⟩ : ∃ m, fuel = m + 1 := ⟨fuel - 1, by omega⟩
    rw [goBatches_succ]
    rw [show idx + 0 = idx from rfl] at hrows
    rw [hrows]
    have h0 : ¬rows.length = 0 := by omega
    have hlt : ¬rows.length < batchSize := by omega
    simp only [h0, if_false, hlt]
    obtain ⟨acc2, hacc2⟩ := ih m (idx + 1) (acc ++ rows.map proc)
      (by
        intro j hj
        have := hfull (j + 1) (by omega)
        rwa [show idx + (j + 1) = idx + 1 + j from by omega] at this)
      (by omega)
    refine ⟨acc2, ?_⟩
    rw [hacc2]
    rw [show m + 1 - (n + 1) = m - n from by omega,
        show idx + 1 + n = idx + (n + 1) from by omega]

/-- C2: batch pagination of the dispatch run.  If every batch before `k`
was full and batch `k` returns fewer than `BATCH_SIZE` rows, the run stops
with exactly `k + 1` queries (no further query); if batch `k` returns
exactly `BATCH_SIZE` rows and the cap is not yet reached, at least one more
query is issued; and no run ever issues more than `MAX_BATCHES_PER_RUN`
queries. -/
theorem dispatch_batch_pagination (fetch : Nat → Except String (List FetchedRow))
    (k : Nat) (rows : List FetchedRow)
    (hfull : ∀ j, j < k → ∃ rs, fetch j = .ok rs ∧ rs.length = BATCH_SIZE)
    (hk : fetch k = .ok rows)
    (hlim : rows.length ≤ BATCH_SIZE)
    (hkmax : k < MAX_BATCHES_PER_RUN) :
    (rows.length < BATCH_SIZE → (runDispatch fetch).queries = k + 1) ∧
    (rows.length = BATCH_SIZE → k + 1 < MAX_BATCHES_PER_RUN →
      k + 2 ≤ (runDispatch fetch).queries) ∧
    (runDispatch fetch).queries ≤ MAX_BATCHES_PER_RUN := by
  have hbs : 0 < BATCH_SIZE := by decide
  unfold runDispatch
  obtain ⟨acc2, hwalk⟩ := goBatches_walk fetch
    (fun r => (processTweet r.env r.tweet).result) BATCH_SIZE hbs
    k MAX_BATCHES_PER_RUN 0 []
    (by simpa using hfull) (by omega)
  rw [hwalk]
  obtain ⟨m, hm⟩ : ∃ m, MAX_BATCHES_PER_RUN - k = m + 1 :=
    ⟨MAX_BATCHES_PER_RUN - k - 1, by omega⟩
  rw [hm, show (0 : Nat) + k = k from by omega,
    goBatches_succ_ok fetch (fun r => (processTweet r.env r.tweet).result)
      BATCH_SIZE m k acc2 rows hk]
  refine ⟨?_, ?_, ?_⟩
  · intro hlt
    by_cases h0 : rows.length = 0
    · rw [if_pos h0]
    · rw [if_neg h0, if_pos hlt]
  · intro hfullk hcap
    have h0 : ¬rows.length = 0 := by omega
    have hlt : ¬rows.length < BATCH_SIZE := by omega
    rw [if_neg h0, if_neg hlt]
    have hm1 : m ≠ 0 := by
      simp only [MAX_BATCHES_PER_RUN] at hm hcap
      omega
    have := goBatches_queries_ge fetch
      (fun r => (processTweet r.env r.tweet).result) BATCH_SIZE m (k + 1)
      (acc2 ++ rows.map fun r => (processTweet r.env r.tweet).result) hm1
    omega
  · by_cases h0 : rows.length = 0
    · rw [if_pos h0]
      show k + 1 ≤ MAX_BATCHES_PER_RUN
      simp only [MAX_BATCHES_PER_RUN] at hkmax ⊢
      omega
    · by_cases hlt : rows.length < BATCH_SIZE
      · rw [if_neg h0, if_pos hlt]
        show k + 1 ≤ MAX_BATCHES_PER_RUN
        simp only [MAX_BATCHES_PER_RUN] at hkmax ⊢
        omega
      · rw [if_neg h0, if_neg hlt]
        have := goBatches_queries_le fetch
          (fun r => (processTweet r.env r.tweet).result) BATCH_SIZE m (k + 1)
          (acc2 ++ rows.map fun r => (processTweet r.env r.tweet).result)
        simp only [MAX_BATCHES_PER_RUN] at hm hkmax ⊢
        omega

/-- A per-row environment whose publish succeeds directly with a 201. -/
def okRowEnv : RowEnv :=
  { resolve1 := freshEnv, fetch1 := .response 201 "created" none
    resolve2 := freshEnv, fetch2 := .networkError "unused", nowPost := 5 }

/-- A fetched row that posts successfully. -/
def okRow : FetchedRow :=
  { tweet := { id := "tw", user_id := "u", text := "x" }, env := okRowEnv }

/-- A fetch oracle: one full batch of 50 rows, then nothing due. -/
def fullThenEmptyFetch : Nat → Except String (List FetchedRow) :=
  fun n => if n = 0 then .ok (List.replicate 50 okRow) else .ok []

/-- Witness for C2: a full batch of 50 rows is followed by one more query,
which returns nothing and ends the run after exactly 2 of the at most 10
queries. -/
theorem dispatch_batch_pagination_witness :
    fullThenEmptyFetch 0 = .ok (List.replicate 50 okRow) ∧
    (List.replicate 50 okRow).length = BATCH_SIZE ∧
    fullThenEmptyFetch 1 = .ok [] ∧
    (runDispatch fullThenEmptyFetch).queries = 2 ∧
    (runDispatch fullThenEmptyFetch).queries ≤ MAX_BATCHES_PER_RUN := by
  have hfull : ∀ j, j < 1 → ∃ rs, fullThenEmptyFetch j = .ok rs ∧ rs.length = BATCH_SIZE := by
    intro j hj
    have hj0 : j = 0 := by omega
    subst hj0
    exact ⟨List.replicate 50 okRow, rfl, by simp [BATCH_SIZE]⟩
  have h := dispatch_batch_pagination fullThenEmptyFetch 1 [] hfull rfl
    (by simp [BATCH_SIZE]) (by decide)
  exact ⟨rfl, by simp [BATCH_SIZE], rfl, h.1 (by simp [BATCH_SIZE]), h.2.2⟩

/-! ## Run-level error propagation -/

/-- Whether a run-level response is a success response. -/
def isOkResponse : Except String (List RowResult) → Bool
  | .ok _ => true
  | .error _ => false

/-- If every batch query succeeds, the run never aborts. -/
theorem goBatches_allok (fetch : Nat → Except String (List FetchedRow))
    (proc : FetchedRow → RowResult) (batchSize : Nat)
    (hallok : ∀ j, ∃ rows, fetch j = .ok rows) :
    ∀ fuel idx acc, isOkResponse (goBatches fetch proc batchSize fuel idx acc).response = true := by
  intro fuel
  induction fuel with
  | zero => intro idx acc; simp [goBatches, isOkResponse]
  | succ n ih =>
    intro idx acc
    obtain ⟨rows, hrows⟩ := hallok idx
    rw [goBatches_succ_ok fetch proc batchSize n idx acc rows hrows]
    by_cases h0 : rows.length = 0
    · rw [if_pos h0]; rfl
    · by_cases hlt : rows.length < batchSize
      · rw [if_neg h0, if_pos hlt]; rfl
      · rw [if_neg h0, if_neg hlt]
        exact ih (idx + 1) (acc ++ rows.map proc)

/-- C8: a failing due-rows batch query aborts the run and surfaces as a
run-level error, while a run whose batch queries all succeed never aborts;
an error thrown while processing a single row — here a token-resolution
failure and a publish fetch that rejects at network level — is caught at
the per-row boundary and recorded on that row as a truncated failure
message. -/
theorem run_error_propagation (fetch fetch2 : Nat → Except String (List FetchedRow))
    (e : String) (k : Nat) (env env2 : RowEnv) (t t2 : Tweet)
    (msg m2 tok : String)
    (hfull : ∀ j, j < k → ∃ rs, fetch j = .ok rs ∧ rs.length = BATCH_SIZE)
    (herr : fetch k = .error e)
    (hkmax : k < MAX_BATCHES_PER_RUN)
    (hallok : ∀ j, ∃ rows, fetch2 j = .ok rows)
    (hrow : (getValidTwitterToken env.resolve1 false).result = .error msg)
    (hrow2 : (getValidTwitterToken env2.resolve1 false).result = .ok tok)
    (htok : isBlank tok = false)
    (hnet : env2.fetch1 = .networkError m2) :
    (runDispatch fetch).response = .error e ∧
    isOkResponse (runDispatch fetch2).response = true ∧
    (processTweet env t).update =
      { status := "failed", posted_at := none
        error_message := some (truncateErrorMessage (jsOr msg "Unexpected error posting tweet")) } ∧
    (processTweet env t).result.status = "failed" ∧
    (processTweet env2 t2).update =
      { status := "failed", posted_at := none
        error_message := some (truncateErrorMessage (jsOr m2 "Unexpected error posting tweet")) } ∧
    (processTweet env2 t2).result.status = "failed" := by
  refine ⟨?_, ?_, ?_, ?_, ?_, ?_⟩
  · unfold runDispatch
    obtain ⟨acc2, hwalk⟩ := goBatches_walk fetch
      (fun r => (processTweet r.env r.tweet).result) BATCH_SIZE (by decide)
      k MAX_BATCHES_PER_RUN 0 []
      (by simpa using hfull) (by omega)
    rw [hwalk]
    obtain ⟨m, hm⟩ : ∃ m, MAX_BATCHES_PER_RUN - k = m + 1 :=
      ⟨MAX_BATCHES_PER_RUN - k - 1, by omega⟩
    rw [hm, show (0 : Nat) + k = k from by omega,
      goBatches_succ_err fetch (fun r => (processTweet r.env r.tweet).result)
        BATCH_SIZE m k acc2 e herr]
  · exact goBatches_allok fetch2 (fun r => (processTweet r.env r.tweet).result)
      BATCH_SIZE hallok MAX_BATCHES_PER_RUN 0 []
  · unfold processTweet
    rw [hrow]
    rfl
  · unfold processTweet
    rw [hrow]
    rfl
  · unfold processTweet
    rw [hrow2, hnet]
    simp [htok, postTweet, edgeFail]
  · unfold processTweet
    rw [hrow2, hnet]
    simp [htok, postTweet, edgeFail]

/-- Witness for C8: a run whose first batch query fails aborts with that
error; a run of all-successful queries completes; a row with a missing
credential and a row with a network-rejected publish are each recorded as
failed without aborting anything. -/
theorem run_error_propagation_witness :
    ((fun _ => Except.error "db down") : Nat → Except String (List FetchedRow)) 0 =
      .error "db down" ∧
    (runDispatch (fun _ => Except.error "db down")).response = .error "db down" ∧
    isOkResponse (runDispatch (fun _ => Except.ok [])).response = true ∧
    (processTweet
      { resolve1 :=
          { loadRes := .error { code := none, message := "row not found" }
            now := 0, clientId := "cid", refreshHttp := .error "unused", persistErr := none }
        fetch1 := .networkError "unused", resolve2 := freshEnv
        fetch2 := .networkError "unused", nowPost := 3 }
      { id := "t7", user_id := "u7", text := "x" }).update =
      { status := "failed", posted_at := none, error_message := some "row not found" } ∧
    (processTweet
      { resolve1 := freshEnv, fetch1 := .networkError "socket hang up"
        resolve2 := freshEnv, fetch2 := .networkError "unused", nowPost := 3 }
      { id := "t8", user_id := "u8", text := "x" }).update =
      { status := "failed", posted_at := none, error_message := some "socket hang up" } := by
  have h := run_error_propagation
    (fun _ => Except.error "db down") (fun _ => Except.ok []) "db down" 0
    { resolve1 :=
        { loadRes := .error { code := none, message := "row not found" }
          now := 0, clientId := "cid", refreshHttp := .error "unused", persistErr := none }
      fetch1 := .networkError "unused", resolve2 := freshEnv
      fetch2 := .networkError "unused", nowPost := 3 }
    { resolve1 := freshEnv, fetch1 := .networkError "socket hang up"
      resolve2 := freshEnv, fetch2 := .networkError "unused", nowPost := 3 }
    { id := "t7", user_id := "u7", text := "x" }
    { id := "t8", user_id := "u8", text := "x" }
    "row not found" "socket hang up" "tokA"
    (by intro j hj; omega) rfl (by decide) (fun j => ⟨[], rfl⟩)
    (by decide) (by decide) (by decide) rfl
  refine ⟨rfl, h.1, h.2.1, ?_, ?_⟩
  · have h3 := h.2.2.1
    simpa [jsOr, truncateErrorMessage] using h3
  · have h5 := h.2.2.2.2.1
    simpa [jsOr, truncateErrorMessage] using h5

/-! ## Resolution-failure handling (C6) and publisher classification (C7) -/

/-- A single partial batch yields exactly one result per fetched row: every
row after a failed one is still processed. -/
theorem runDispatch_single_batch (fetch : Nat → Except String (List FetchedRow))
    (rows : List FetchedRow)
    (h0 : fetch 0 = .ok rows) (hlt : rows.length < BATCH_SIZE) :
    (runDispatch fetch).response =
      .ok (rows.map (fun r => (processTweet r.env r.tweet).result)) := by
  unfold runDispatch
  rw [show MAX_BATCHES_PER_RUN = 9 + 1 from rfl,
    goBatches_succ_ok fetch (fun r => (processTweet r.env r.tweet).result)
      BATCH_SIZE 9 0 [] rows h0]
  by_cases hz : rows.length = 0
  · rw [if_pos hz]
    have hnil : rows = [] := List.length_eq_zero.mp hz
    subst hnil
    rfl
  · rw [if_neg hz, if_pos hlt]
    rfl

/-- C6 counterexample: in the cron-route dispatcher a row whose token
resolution fails (account not connected) produces the result record
`{id, status: "failed_no_account"}` — the status is not `"failed"` and no
`error` field is set, contradicting the claimed result record shape. -/
theorem route_resolution_failure_record_cex :
    (routeProcessRow
      { resolve1 :=
          { loadRes := .ok { access_token := "", refresh_token := "", expires_at := none }
            now := 0, clientId := "cid", refreshHttp := .error "unused", persistErr := none }
        fetch1 := .networkError "unused"
        resolve2 :=
          { loadRes := .ok { access_token := "", refresh_token := "", expires_at := none }
            now := 0, clientId := "cid", refreshHttp := .error "unused", persistErr := none }
        fetch2 := .networkError "unused", nowPost := 0 }
      { id := "t2", user_id := "u2", text := "hi" }).result =
      { id := "t2", status := "failed_no_account", error := none } ∧
    ¬(routeProcessRow
      { resolve1 :=
          { loadRes := .ok { access_token := "", refresh_token := "", expires_at := none }
            now := 0, clientId := "cid", refreshHttp := .error "unused", persistErr := none }
        fetch1 := .networkError "unused"
        resolve2 :=
          { loadRes := .ok { access_token := "", refresh_token := "", expires_at := none }
            now := 0, clientId := "cid", refreshHttp := .error "unused", persistErr := none }
        fetch2 := .networkError "unused", nowPost := 0 }
      { id := "t2", user_id := "u2", text := "hi" }).result.status = "failed" := by
  constructor
  · rfl
  · decide

/-- C6 as amended: a row whose token resolution fails gets no publish call,
is marked failed in the database with the resolution error recorded
(truncated/sliced to 500 units), and the run continues with every remaining
fetched row; the per-row result record is `{id, status:"failed", error}` in
the edge-function dispatcher but `{id, status:"failed_no_account"}` with no
error field in the cron-route dispatcher. -/
theorem resolution_failure_no_publish (env env2 : RowEnv) (t t2 : Tweet)
    (msg msg2 : String) (fetch : Nat → Except String (List FetchedRow))
    (rows : List FetchedRow)
    (hres : (getValidTwitterToken env.resolve1 false).result = .error msg)
    (hres2 : (getValidTwitterToken env2.resolve1 false).result = .error msg2)
    (hb : fetch 0 = .ok rows) (hlen : rows.length < BATCH_SIZE) :
    (processTweet env t).publishCalls = 0 ∧
    (processTweet env t).result =
      { id := t.id, status := "failed"
        error := some (truncateErrorMessage (jsOr msg "Unexpected error posting tweet")) } ∧
    (processTweet env t).update =
      { status := "failed", posted_at := none
        error_message := some (truncateErrorMessage (jsOr msg "Unexpected error posting tweet")) } ∧
    (routeProcessRow env2 t2).publishCalls = 0 ∧
    (routeProcessRow env2 t2).result =
      { id := t2.id, status := "failed_no_account", error := none } ∧
    (routeProcessRow env2 t2).updates =
      [routeMarkFailed (jsOr msg2 "No Twitter account connected for this user.")] ∧
    (runDispatch fetch).response =
      .ok (rows.map (fun r => (processTweet r.env r.tweet).result)) := by
  refine ⟨?_, ?_, ?_, ?_, ?_, ?_, runDispatch_single_batch fetch rows hb hlen⟩
  · unfold processTweet; rw [hres]; rfl
  · unfold processTweet; rw [hres]; rfl
  · unfold processTweet; rw [hres]; rfl
  · unfold routeProcessRow; rw [hres2]
  · unfold routeProcessRow; rw [hres2]
  · unfold routeProcessRow; rw [hres2]

/-- Witness for the amended C6: a concrete not-connected row is recorded as
failed with no publish call in both dispatchers, and a following row in the
same batch is still processed. -/
theorem resolution_failure_no_publish_witness :
    (getValidTwitterToken
      { loadRes := .ok { access_token := "", refresh_token := "", expires_at := none }
        now := 0, clientId := "cid", refreshHttp := .error "unused", persistErr := none }
      false).result = .error "Twitter account not connected for this user." ∧
    (processTweet
      { resolve1 :=
          { loadRes := .ok { access_token := "", refresh_token := "", expires_at := none }
            now := 0, clientId := "cid", refreshHttp := .error "unused", persistErr := none }
        fetch1 := .networkError "unused", resolve2 := freshEnv
        fetch2 := .networkError "unused", nowPost := 0 }
      { id := "t2", user_id := "u2", text := "hi" }).publishCalls = 0 ∧
    (processTweet
      { resolve1 :=
          { loadRes := .ok { access_token := "", refresh_token := "", expires_at := none }
            now := 0, clientId := "cid", refreshHttp := .error "unused", persistErr := none }
        fetch1 := .networkError "unused", resolve2 := freshEnv
        fetch2 := .networkError "unused", nowPost := 0 }
      { id := "t2", user_id := "u2", text := "hi" }).result =
      { id := "t2", status := "failed"
        error := some "Twitter account not connected for this user." } ∧
    (routeProcessRow
      { resolve1 :=
          { loadRes := .ok { access_token := "", refresh_token := "", expires_at := none }
            now := 0, clientId := "cid", refreshHttp := .error "unused", persistErr := none }
        fetch1 := .networkError "unused", resolve2 := freshEnv
        fetch2 := .networkError "unused", nowPost := 0 }
      { id := "t2", user_id := "u2", text := "hi" }).publishCalls = 0 ∧
    (runDispatch (fun _ => Except.ok
      [{ tweet := { id := "t2", user_id := "u2", text := "hi" }
         env :=
          { resolve1 :=
              { loadRes := .ok { access_token := "", refresh_token := "", expires_at := none }
                now := 0, clientId := "cid", refreshHttp := .error "unused", persistErr := none }
            fetch1 := .networkError "unused", resolve2 := freshEnv
            fetch2 := .networkError "unused", nowPost := 0 } },
       okRow])).response =
      .ok [{ id := "t2", status := "failed"
             error := some "Twitter account not connected for this user." },
           { id := "tw", status := "posted", error := none }] := by
  have h := resolution_failure_no_publish
    { resolve1 :=
        { loadRes := .ok { access_token := "", refresh_token := "", expires_at := none }
          now := 0, clientId := "cid", refreshHttp := .error "unused", persistErr := none }
      fetch1 := .networkError "unused", resolve2 := freshEnv
      fetch2 := .networkError "unused", nowPost := 0 }
    { resolve1 :=
        { loadRes := .ok { access_token := "", refresh_token := "", expires_at := none }
          now := 0, clientId := "cid", refreshHttp := .error "unused", persistErr := none }
      fetch1 := .networkError "unused", resolve2 := freshEnv
      fetch2 := .networkError "unused", nowPost := 0 }
    { id := "t2", user_id := "u2", text := "hi" }
    { id := "t2", user_id := "u2", text := "hi" }
    "Twitter account not connected for this user."
    "Twitter account not connected for this user."
    (fun _ => Except.ok
      [{ tweet := { id := "t2", user_id := "u2", text := "hi" }
         env :=
          { resolve1 :=
              { loadRes := .ok { access_token := "", refresh_token := "", expires_at := none }
                now := 0, clientId := "cid", refreshHttp := .error "unused", persistErr := none }
            fetch1 := .networkError "unused", resolve2 := freshEnv
            fetch2 := .networkError "unused", nowPost := 0 } },
       okRow])
    [{ tweet := { id := "t2", user_id := "u2", text := "hi" }
       env :=
        { resolve1 :=
            { loadRes := .ok { access_token := "", refresh_token := "", expires_at := none }
              now := 0, clientId := "cid", refreshHttp := .error "unused", persistErr := none }
          fetch1 := .networkError "unused", resolve2 := freshEnv
          fetch2 := .networkError "unused", nowPost := 0 } },
     okRow]
    rfl rfl rfl (by decide)
  refine ⟨rfl, h.1, ?_, h.2.2.2.1, ?_⟩
  · have h2 := h.2.1
    simpa [jsOr, truncateErrorMessage] using h2
  · have h7 := h.2.2.2.2.2.2
    rw [h7]
    rfl

/-- C7 counterexample: the edge-function publish operation does throw on a
network-level failure — the `fetch` rejection propagates as an exception
instead of being returned as an `ok=false` result with status 0. -/
theorem publisher_network_throw_cex :
    postTweet (.networkError "fetch failed") = .error "fetch failed" ∧
    postTweet (.networkError "fetch failed") ≠ .ok (.err 0 "fetch failed") := by
  constructor
  · rfl
  · decide

/-- C7 as amended: neither publisher throws for ordinary HTTP failures —
both return `ok=false` with the response's status code preserved; the
cron-route publisher additionally never throws at all, returning network
failures as `ok=false` with status 0, while the edge-function publisher
propagates a network failure as an exception (caught at the per-row
boundary). -/
theorem publisher_http_failures_never_throw (st st2 : Nat) (raw m : String)
    (p : Option ParsedError)
    (hnok : fetchOk st = false) (hok : fetchOk st2 = true) :
    routePostTweet (.response st raw p) = .err st (extractRouteError st p) ∧
    routePostTweet (.response st2 raw p) = .ok st2 ∧
    routePostTweet (.networkError m) = .err 0 (jsOr m "Network error") ∧
    postTweet (.response st raw p) = .ok (.err st (extractEdgeError st raw p)) ∧
    postTweet (.response st2 raw p) = .ok (.ok st2) ∧
    postTweet (.networkError m) = .error m := by
  refine ⟨?_, ?_, rfl, ?_, ?_, rfl⟩
  · simp [routePostTweet, hnok]
  · simp [routePostTweet, hok]
  · simp [postTweet, hnok]
  · simp [postTweet, hok]

/-- Witness for the amended C7: concrete 403 and 200 responses and a
concrete network failure, classified by both publishers. -/
theorem publisher_http_failures_never_throw_witness :
    fetchOk 403 = false ∧
    fetchOk 200 = true ∧
    routePostTweet (.response 403 "nope" none) = .err 403 "Twitter API error 403" ∧
    routePostTweet (.networkError "ECONNRESET") = .err 0 "ECONNRESET" ∧
    postTweet (.response 403 "nope" none) = .ok (.err 403 "nope") ∧
    postTweet (.networkError "ECONNRESET") = .error "ECONNRESET" := by
  have h := publisher_http_failures_never_throw 403 200 "nope" "ECONNRESET" none
    (by decide) (by decide)
  refine ⟨by decide, by decide, ?_, ?_, ?_, h.2.2.2.2.2⟩
  · have h1 := h.1
    simpa [extractRouteError] using h1
  · have h3 := h.2.2.1
    simpa [jsOr] using h3
  · have h4 := h.2.2.2.1
    simpa [extractEdgeError, jsOr] using h4

end ScheduledTweets
